import Mathlib

/-!
# Verification of the FinK reconciliation controller

A shallow embedding of the FinK Kubernetes controller
(src/controller/virtualmachine.rs, src/controller/pokemon.rs,
src/controller/mod.rs) and proofs about its reconciliation logic.

The controller's interaction with the Kubernetes API is modelled by an
environment (`KubeEnv`) recording the outcome of each API endpoint the
reconciler may call during one pass (each endpoint is invoked at most
once per pass in the source), and each reconcile function returns the
list of API calls it issued (`Call`) together with its result.
-/

namespace Fink

/-- The ErrorResponse payload of a Kubernetes API error
(kube::error::ErrorResponse): the code field is the HTTP status code
matched by the controller. -/
structure ErrorResponse where
  status : String
  message : String
  reason : String
  code : Nat
deriving DecidableEq, Repr

/-- The kube client error (kube::Error).  The source only ever
distinguishes the Api variant (carrying an ErrorResponse) from all
others, so the remaining variants (transport, auth, serde, ...) are
collapsed into Other. -/
inductive KubeError
  | Api (response : ErrorResponse)
  | Other
deriving DecidableEq, Repr

/-- Modelled from the spec: the crate error type crate::errors::Error is
declared in src/errors.rs, which is not under src/; its variants are
reconstructed from its call sites (Error::KubeError in
virtualmachine.rs/pokemon.rs, Error::FinalizerError in mod.rs). -/
inductive Error
  | KubeError (e : KubeError)
  | FinalizerError
deriving DecidableEq, Repr

/-- The controller action returned from reconcile
(kube::runtime::controller::Action): requeue after a delay in seconds,
or wait for the next change event. -/
inductive Action
  | requeue (secs : Nat)
  | await_change
deriving DecidableEq, Repr

/-- Owner reference attached to child resources
(ResourceExt::controller_owner_ref). -/
structure OwnerReference where
  apiVersion : String
  kind : String
  name : String
  uid : String
  controller : Option Bool
  blockOwnerDeletion : Option Bool
deriving DecidableEq, Repr

/-- Object metadata (kube::core::ObjectMeta), restricted to the fields
the controller reads or writes. -/
structure ObjectMeta where
  name : Option String
  namespaceField : Option String
  uid : Option String
  labels : Option (List (String × String))
  ownerReferences : Option (List OwnerReference)
  deletionTimestamp : Option String
  finalizers : Option (List String)
deriving DecidableEq, Repr

/-- Container status as observed on a Pod
(k8s_openapi ContainerStatus), restricted to the started flag the
controller reads. -/
structure ContainerStatus where
  name : String
  started : Option Bool
deriving DecidableEq, Repr

/-- Pod status, restricted to the container statuses field. -/
structure PodStatus where
  containerStatuses : Option (List ContainerStatus)
deriving DecidableEq, Repr

/-- A container in a pod spec. -/
structure Container where
  name : String
  image : Option String
deriving DecidableEq, Repr

/-- A pod spec: the list of containers. -/
structure PodSpec where
  containers : List Container
deriving DecidableEq, Repr

/-- A Kubernetes Pod. -/
structure Pod where
  metadata : ObjectMeta
  spec : Option PodSpec
  status : Option PodStatus
deriving DecidableEq, Repr

/-- An IntOrString service target port. -/
inductive IntOrString
  | Int (value : Int)
  | Str (value : String)
deriving DecidableEq, Repr

/-- A service port. -/
structure ServicePort where
  protocol : Option String
  port : Int
  targetPort : Option IntOrString
deriving DecidableEq, Repr

/-- A service spec: selector labels and ports. -/
structure ServiceSpec where
  selector : Option (List (String × String))
  ports : Option (List ServicePort)
deriving DecidableEq, Repr

/-- A Kubernetes Service. -/
structure Service where
  metadata : ObjectMeta
  spec : Option ServiceSpec
deriving DecidableEq, Repr

/-- VirtualMachineDesiredState (virtualmachine.rs lines 24-30). -/
inductive VirtualMachineDesiredState
  | STOPPED
  | STARTED
  | HIBERNATED
deriving DecidableEq, Repr

/-- VirtualMachineCurrentState (virtualmachine.rs lines 32-41). -/
inductive VirtualMachineCurrentState
  | STOPPED
  | STOPPING
  | STARTED
  | STARTING
  | HIBERNATING
  | HIBERNATED
deriving DecidableEq, Repr

/-- VirtualMachineSpec (virtualmachine.rs lines 56-59). -/
structure VirtualMachineSpec where
  image : String
  state : VirtualMachineDesiredState
deriving DecidableEq, Repr

/-- VirtualMachineStatus (virtualmachine.rs lines 61-64). -/
structure VirtualMachineStatus where
  state : VirtualMachineCurrentState
deriving DecidableEq, Repr

/-- The VirtualMachine custom resource. -/
structure VirtualMachine where
  metadata : ObjectMeta
  spec : VirtualMachineSpec
  status : Option VirtualMachineStatus
deriving DecidableEq, Repr

/-- The finalizer marker (virtualmachine.rs line 22). -/
def VIRTUAL_MACHINE_FINALIZER : String := "vm.codesandbox.io"

/-- The API calls a single VirtualMachine reconcile pass can issue, in
issue order; create calls carry the object being created. -/
inductive Call
  | getService
  | createService (s : Service)
  | getPod
  | createPod (p : Pod)
  | deletePod
  | deleteService
  | patchStatus (st : VirtualMachineCurrentState)
deriving DecidableEq, Repr

/-- The outcome of each API endpoint during one reconcile pass.  Each
endpoint is called at most once per pass in the source, so one result
per endpoint fully determines the pass. -/
structure KubeEnv where
  getService : Except KubeError Service
  createService : Except KubeError Unit
  getPod : Except KubeError Pod
  createPod : Except KubeError Unit
  deletePod : Except KubeError Unit
  deleteService : Except KubeError Unit
  patchStatus : Except KubeError Unit
deriving Repr

/-- The lookup-result test used by the start path (virtualmachine.rs
lines 160-161 and 171-172): an Api error whose code is 404. -/
def is404 {α : Type} : Except KubeError α → Bool
  | .error (.Api r) => r.code == 404
  | _ => false

/-- Whether an API result is a success (Result::is_ok, used by the stop
path at virtualmachine.rs lines 225 and 234). -/
def isOk {α : Type} : Except KubeError α → Bool
  | .ok _ => true
  | .error _ => false

/-- The object name used for the VM and its children: the source
unwraps self.metadata.name (panicking when absent); the embedding
totalises with the empty string. -/
def vmName (vm : VirtualMachine) : String :=
  vm.metadata.name.getD ""

/-- Owner-reference builder controller_owner_ref (virtualmachine.rs
line 110): owner reference with controller and blockOwnerDeletion
set. -/
def controller_owner_ref (vm : VirtualMachine) : OwnerReference :=
  { apiVersion := "codesandbox.io/v1alpha1"
    kind := "VirtualMachine"
    name := vmName vm
    uid := vm.metadata.uid.getD ""
    controller := some true
    blockOwnerDeletion := some true }

/-- BTreeMap::insert on the label map: replaces any binding of the key
and adds the new one. -/
def labelsInsert (m : List (String × String)) (k v : String) :
    List (String × String) :=
  (m.filter fun p => p.1 ≠ k) ++ [(k, v)]

/-- The labels placed on both children (virtualmachine.rs lines
114-117): the VM's own labels plus the deterministic selector label. -/
def desiredLabels (vm : VirtualMachine) : List (String × String) :=
  labelsInsert (vm.metadata.labels.getD []) "vms.codesandbox.io/name" (vmName vm)

/-- The Pod built by the start path (virtualmachine.rs lines 120-136). -/
def desiredPod (vm : VirtualMachine) : Pod :=
  { metadata :=
      { name := some (vmName vm)
        namespaceField := none
        uid := none
        labels := some (desiredLabels vm)
        ownerReferences := some [controller_owner_ref vm]
        deletionTimestamp := none
        finalizers := none }
    spec := some
      { containers := [{ name := "vm-container", image := some vm.spec.image }] }
    status := none }

/-- The Service built by the start path (virtualmachine.rs lines
138-156). -/
def desiredService (vm : VirtualMachine) : Service :=
  { metadata :=
      { name := some (vmName vm)
        namespaceField := none
        uid := none
        labels := some (desiredLabels vm)
        ownerReferences := some [controller_owner_ref vm]
        deletionTimestamp := none
        finalizers := none }
    spec := some
      { selector := some (desiredLabels vm)
        ports := some [{ protocol := some "TCP", port := 80,
                         targetPort := some (IntOrString.Int 80) }] } }

/-- Status updater update_status (virtualmachine.rs lines 93-104): a
status patch; a kube error is mapped to Error::KubeError. -/
def update_status (env : KubeEnv) (st : VirtualMachineCurrentState) :
    List Call × Except Error Unit :=
  match env.patchStatus with
  | .ok _ => ([Call.patchStatus st], .ok ())
  | .error e => ([Call.patchStatus st], .error (.KubeError e))

/-- The pod observation driving the status decision (virtualmachine.rs
lines 180-187): the container statuses of the looked-up pod, when the
lookup succeeded and both status and container_statuses are present. -/
def podObservation : Except KubeError Pod → Option (List ContainerStatus)
  | .ok pod => pod.status.bind fun ps => ps.containerStatuses
  | .error _ => none

/-- The started test on a container status (virtualmachine.rs line
191): started.unwrap_or(false). -/
def containerStarted (cs : ContainerStatus) : Bool :=
  cs.started.getD false

/-- Service ensure-exists block of VirtualMachine::start
(virtualmachine.rs lines 158-167): look up the Service and create it
only when the lookup failed with a 404 Api error; a create error
propagates; every other lookup outcome falls through. -/
def serviceEnsure (env : KubeEnv) (vm : VirtualMachine) :
    List Call × Except Error Unit :=
  if is404 env.getService then
    match env.createService with
    | .ok _ => ([Call.getService, Call.createService (desiredService vm)], .ok ())
    | .error e =>
        ([Call.getService, Call.createService (desiredService vm)],
         .error (.KubeError e))
  else ([Call.getService], .ok ())

/-- Pod ensure-exists block of VirtualMachine::start
(virtualmachine.rs lines 169-178): same shape as the Service block. -/
def podEnsure (env : KubeEnv) (vm : VirtualMachine) :
    List Call × Except Error Unit :=
  if is404 env.getPod then
    match env.createPod with
    | .ok _ => ([Call.getPod, Call.createPod (desiredPod vm)], .ok ())
    | .error e =>
        ([Call.getPod, Call.createPod (desiredPod vm)],
         .error (.KubeError e))
  else ([Call.getPod], .ok ())

/-- Status block of VirtualMachine::start (virtualmachine.rs lines
180-210): from the pod lookup result, patch STARTED when container
statuses are present and all report started, patch nothing when they
are present but not all started, patch STARTING otherwise. -/
def statusPhase (env : KubeEnv) : List Call × Except Error Unit :=
  match podObservation env.getPod with
  | some css =>
      if css.all containerStarted then
        update_status env VirtualMachineCurrentState.STARTED
      else ([], .ok ())
  | none => update_status env VirtualMachineCurrentState.STARTING

/-- VirtualMachine::start (virtualmachine.rs lines 106-213): ensure
the Service exists, ensure the Pod exists, then patch status from the
pod lookup result; an error in any block aborts the rest. -/
def start (env : KubeEnv) (vm : VirtualMachine) :
    List Call × Except Error Unit :=
  match serviceEnsure env vm with
  | (calls, .error e) => (calls, .error e)
  | (calls, .ok _) =>
    match podEnsure env vm with
    | (pcalls, .error e) => (calls ++ pcalls, .error e)
    | (pcalls, .ok _) =>
      let u := statusPhase env
      (calls ++ pcalls ++ u.1, u.2)

/-- VirtualMachine::stop (virtualmachine.rs lines 215-243): look up the
Pod and delete it when the lookup succeeded (delete errors propagate,
lookup errors mean nothing to delete), then the same for the
Service. -/
def stop (env : KubeEnv) (_vm : VirtualMachine) :
    List Call × Except Error Unit :=
  let podPhase : List Call × Except Error Unit :=
    match env.getPod with
    | .ok _ =>
      match env.deletePod with
      | .ok _ => ([Call.getPod, Call.deletePod], .ok ())
      | .error e => ([Call.getPod, Call.deletePod], .error (.KubeError e))
    | .error _ => ([Call.getPod], .ok ())
  match podPhase with
  | (calls, .error e) => (calls, .error e)
  | (calls, .ok _) =>
    match env.getService with
    | .ok _ =>
      match env.deleteService with
      | .ok _ => (calls ++ [Call.getService, Call.deleteService], .ok ())
      | .error e =>
          (calls ++ [Call.getService, Call.deleteService], .error (.KubeError e))
    | .error _ => (calls ++ [Call.getService], .ok ())

/-- VirtualMachine::hibernate (virtualmachine.rs lines 244-247):
log-only, no API calls, always Ok. -/
def hibernate (_env : KubeEnv) (_vm : VirtualMachine) :
    List Call × Except Error Unit :=
  ([], .ok ())

/-- VirtualMachine::reconcile (virtualmachine.rs lines 68-79): dispatch
on the desired state and, on success, requeue after 5 * 60 seconds. -/
def reconcile (env : KubeEnv) (vm : VirtualMachine) :
    List Call × Except Error Action :=
  let r :=
    match vm.spec.state with
    | .STOPPED => stop env vm
    | .STARTED => start env vm
    | .HIBERNATED => hibernate env vm
  (r.1,
   match r.2 with
   | .ok _ => .ok (Action.requeue (5 * 60))
   | .error e => .error e)

/-- VirtualMachine::cleanup (virtualmachine.rs lines 82-91): no API
calls, always Ok(Action::await_change()). -/
def cleanup (_vm : VirtualMachine) : List Call × Except Error Action :=
  ([], .ok Action.await_change)

/-- The error policy error_policy (mod.rs lines 45-48): every error
requeues after 5 * 60 seconds. -/
def error_policy (_vm : VirtualMachine) (_error : Error) : Action :=
  Action.requeue (5 * 60)

/-! ## Patch mechanics of the two status call sites -/

/-- The kube Patch variants (kube::api::Patch). -/
inductive PatchKind
  | Apply
  | Merge
  | Json
  | Strategic
deriving DecidableEq, Repr

/-- Patch parameters (kube::api::PatchParams), restricted to the field
manager and force flag. -/
structure PatchParams where
  fieldManager : Option String
  force : Bool
deriving DecidableEq, Repr

/-- PatchParams::default(): no field manager, not forced. -/
def PatchParams.default : PatchParams :=
  { fieldManager := none, force := false }

/-- PatchParams::apply(manager): a server-side-apply parameter set
carrying the field manager. -/
def PatchParams.applyManager (manager : String) : PatchParams :=
  { fieldManager := some manager, force := false }

/-- PatchParams::force(): set the force flag. -/
def PatchParams.forced (p : PatchParams) : PatchParams :=
  { p with force := true }

/-- The patch kind of the VirtualMachine status call site
(virtualmachine.rs line 98): Patch::Merge(status). -/
def vmStatusPatchKind : PatchKind := PatchKind.Merge

/-- The patch params of the VirtualMachine status call site
(virtualmachine.rs line 100): PatchParams::default(). -/
def vmStatusPatchParams : PatchParams := PatchParams.default

/-- The patch kind of the Pokemon status call site (pokemon.rs lines
58-64): Patch::Apply of a status-only document. -/
def pokemonStatusPatchKind : PatchKind := PatchKind.Apply

/-- The patch params of the Pokemon status call site (pokemon.rs line
66): PatchParams::apply of the cntrlr manager, forced. -/
def pokemonStatusPatchParams : PatchParams :=
  (PatchParams.applyManager "cntrlr").forced

/-- A force-applied server-side apply carrying a field-manager
identity. -/
def IsForceApply (k : PatchKind) (p : PatchParams) : Prop :=
  k = PatchKind.Apply ∧ p.force = true ∧ p.fieldManager ≠ none

/-! ## Trace predicates -/

/-- Whether a call is a Service create. -/
def isCreateServiceCall : Call → Bool
  | .createService _ => true
  | _ => false

/-- Whether a call is a Pod create. -/
def isCreatePodCall : Call → Bool
  | .createPod _ => true
  | _ => false

/-- Whether a call is a child-resource delete. -/
def isDeleteCall : Call → Bool
  | .deletePod => true
  | .deleteService => true
  | _ => false

/-- Whether a call is a status patch. -/
def isPatchCall : Call → Bool
  | .patchStatus _ => true
  | _ => false

/-- Whether a call is anything but a status patch of STARTING or
STARTED: the only status writes the VirtualMachine controller can
issue. -/
def statusWriteAllowed : Call → Bool
  | .patchStatus VirtualMachineCurrentState.STARTING => true
  | .patchStatus VirtualMachineCurrentState.STARTED => true
  | .patchStatus _ => false
  | _ => true

/-- The current-state values written by the status patches of a call
trace, in order. -/
def statusWrites (calls : List Call) : List VirtualMachineCurrentState :=
  calls.filterMap fun c =>
    match c with
    | .patchStatus st => some st
    | _ => none

/-- The status write a start pass makes, as a function of the pod
lookup observation: STARTED when all observed containers are started,
none when containers are observed but not all started, STARTING when
the lookup failed or no container statuses are present. -/
def expectedStatusWrites (obs : Option (List ContainerStatus)) :
    List VirtualMachineCurrentState :=
  match obs with
  | some css =>
      if css.all containerStarted then [VirtualMachineCurrentState.STARTED]
      else []
  | none => [VirtualMachineCurrentState.STARTING]

/-! ## Cluster semantics

A deterministic single-object cluster: the VirtualMachine object, its
Pod child and its Service child.  Running a reconcile pass against a
cluster samples the environment from the cluster (lookups return the
stored object or a 404 Api error; writes succeed — the fault-free
run the idempotence property quantifies over) and folds the issued
calls back into the cluster. -/

/-- The cluster state visible to one VirtualMachine reconcile. -/
structure Cluster where
  vm : VirtualMachine
  pod : Option Pod
  service : Option Service
deriving DecidableEq, Repr

/-- The 404 ErrorResponse returned for a lookup of an absent object. -/
def notFound : ErrorResponse :=
  { status := "Failure", message := "not found", reason := "NotFound", code := 404 }

/-- The environment a cluster presents to a reconcile pass: lookups
return the stored child or a 404, writes succeed. -/
def envOf (c : Cluster) : KubeEnv :=
  { getService :=
      match c.service with
      | some s => .ok s
      | none => .error (.Api notFound)
    createService := .ok ()
    getPod :=
      match c.pod with
      | some p => .ok p
      | none => .error (.Api notFound)
    createPod := .ok ()
    deletePod := .ok ()
    deleteService := .ok ()
    patchStatus := .ok () }

/-- The effect of one issued call on the cluster.  A status patch is
the merge patch of update_status: VirtualMachineStatus has the single
field state, so the merge sets the whole status. -/
def applyCall (c : Cluster) : Call → Cluster
  | .createService s => { c with service := some s }
  | .createPod p => { c with pod := some p }
  | .deletePod => { c with pod := none }
  | .deleteService => { c with service := none }
  | .patchStatus st =>
      { c with vm := { c.vm with status := some { state := st } } }
  | _ => c

/-- Fold a call trace into the cluster. -/
def applyTrace (c : Cluster) (calls : List Call) : Cluster :=
  calls.foldl applyCall c

/-- One reconcile pass of the VirtualMachine reconciler against the
cluster, observing the stored VM object. -/
def normalStep (c : Cluster) : Cluster :=
  applyTrace c (reconcile (envOf c) c.vm).1

/-- Modelled from the spec: the finalizer-add patch of the finalizer
gate (the kube runtime finalizer helper is library code, not under
src/) — ensures the finalizer marker is present, never duplicating
it. -/
def addFinalizer (vm : VirtualMachine) : VirtualMachine :=
  let fins := vm.metadata.finalizers.getD []
  if VIRTUAL_MACHINE_FINALIZER ∈ fins then vm
  else
    { vm with metadata :=
        { vm.metadata with finalizers := some (fins ++ [VIRTUAL_MACHINE_FINALIZER]) } }

/-- Modelled from the spec: the finalizer-remove patch issued after a
successful cleanup — removes the finalizer marker, unblocking physical
deletion. -/
def removeFinalizer (vm : VirtualMachine) : VirtualMachine :=
  let fins := (vm.metadata.finalizers.getD []).filter
    fun f => f ≠ VIRTUAL_MACHINE_FINALIZER
  { vm with metadata := { vm.metadata with finalizers := some fins } }

/-- Modelled from the spec: the finalizer gate of mod.rs lines 31-44
(the kube runtime finalizer helper is library code, not under src/).
An object with a deletion timestamp runs cleanup — which always
succeeds without touching the cluster (virtualmachine.rs lines
82-91) — and then has the finalizer removed; a live object has the
finalizer ensured present and runs the normal reconcile path. -/
def gateStep (c : Cluster) : Cluster :=
  if c.vm.metadata.deletionTimestamp.isSome then
    { c with vm := removeFinalizer c.vm }
  else
    normalStep { c with vm := addFinalizer c.vm }

/-! ## Concrete fixtures for counterexamples and witnesses -/

/-- A concrete object metadata. -/
def meta0 : ObjectMeta :=
  { name := some "vm-a"
    namespaceField := some "default"
    uid := some "uid-1"
    labels := none
    ownerReferences := none
    deletionTimestamp := none
    finalizers := none }

/-- A concrete VirtualMachine with desired state STARTED. -/
def vm0 : VirtualMachine :=
  { metadata := meta0
    spec := { image := "img:1", state := VirtualMachineDesiredState.STARTED }
    status := none }

/-- A concrete VirtualMachine with desired state HIBERNATED. -/
def vmHib : VirtualMachine :=
  { metadata := meta0
    spec := { image := "img:1", state := VirtualMachineDesiredState.HIBERNATED }
    status := none }

/-- A concrete VirtualMachine with desired state STOPPED. -/
def vmStop : VirtualMachine :=
  { metadata := meta0
    spec := { image := "img:1", state := VirtualMachineDesiredState.STOPPED }
    status := none }

/-- A 500 internal-error response. -/
def serverError : ErrorResponse :=
  { status := "Failure", message := "internal", reason := "InternalError", code := 500 }

/-- A 409 optimistic-concurrency conflict response. -/
def conflictResponse : ErrorResponse :=
  { status := "Failure", message := "conflict", reason := "Conflict", code := 409 }

/-- A pod whose single container is observed started. -/
def podStarted : Pod :=
  { metadata := meta0
    spec := none
    status :=
      some { containerStatuses := some [{ name := "vm-container", started := some true }] } }

/-- A pod whose single container is observed not started. -/
def podNotStarted : Pod :=
  { metadata := meta0
    spec := none
    status :=
      some { containerStatuses := some [{ name := "vm-container", started := some false }] } }

/-- An environment where both child lookups fail with a non-404 Api
error and every write succeeds. -/
def envLookup500 : KubeEnv :=
  { getService := .error (.Api serverError)
    createService := .ok ()
    getPod := .error (.Api serverError)
    createPod := .ok ()
    deletePod := .ok ()
    deleteService := .ok ()
    patchStatus := .ok () }

/-- An environment where both children exist, the pod not yet started,
and every write succeeds. -/
def envPodNotStarted : KubeEnv :=
  { getService := .ok (desiredService vm0)
    createService := .ok ()
    getPod := .ok podNotStarted
    createPod := .ok ()
    deletePod := .ok ()
    deleteService := .ok ()
    patchStatus := .ok () }

/-- An environment where both child lookups 404 and every write
succeeds. -/
def env404 : KubeEnv :=
  { getService := .error (.Api notFound)
    createService := .ok ()
    getPod := .error (.Api notFound)
    createPod := .ok ()
    deletePod := .ok ()
    deleteService := .ok ()
    patchStatus := .ok () }

/-- An environment where both children exist, the pod started, and
every write succeeds. -/
def envBothOk : KubeEnv :=
  { getService := .ok (desiredService vm0)
    createService := .ok ()
    getPod := .ok podStarted
    createPod := .ok ()
    deletePod := .ok ()
    deleteService := .ok ()
    patchStatus := .ok () }

/-- A cluster holding a deleting VM (deletion timestamp set, finalizer
present) with both children absent. -/
def clusterDeleting : Cluster :=
  { vm :=
      { metadata :=
          { meta0 with
            deletionTimestamp := some "2024-01-01T00:00:00Z"
            finalizers := some [VIRTUAL_MACHINE_FINALIZER] }
        spec := { image := "img:1", state := VirtualMachineDesiredState.STARTED }
        status := none }
    pod := none
    service := none }

/-! ## Helper lemmas -/

/-- A successful API result is an ok value. -/
theorem isOk_true {α : Type} {x : Except KubeError α} (h : isOk x = true) :
    ∃ a, x = .ok a := by
  cases x with
  | ok a => exact ⟨a, rfl⟩
  | error e => simp [isOk] at h

/-- When the Service create succeeds, the service ensure block
succeeds with a create exactly on a 404 lookup. -/
theorem serviceEnsure_ok (env : KubeEnv) (vm : VirtualMachine)
    (h : isOk env.createService = true) :
    serviceEnsure env vm =
      ((if is404 env.getService then
          [Call.getService, Call.createService (desiredService vm)]
        else [Call.getService]), .ok ()) := by
  obtain ⟨u, hu⟩ := isOk_true h
  cases h4 : is404 env.getService with
  | true => simp [serviceEnsure, h4, hu]
  | false => simp [serviceEnsure, h4]

/-- When the Pod create succeeds, the pod ensure block succeeds with a
create exactly on a 404 lookup. -/
theorem podEnsure_ok (env : KubeEnv) (vm : VirtualMachine)
    (h : isOk env.createPod = true) :
    podEnsure env vm =
      ((if is404 env.getPod then
          [Call.getPod, Call.createPod (desiredPod vm)]
        else [Call.getPod]), .ok ()) := by
  obtain ⟨u, hu⟩ := isOk_true h
  cases h4 : is404 env.getPod with
  | true => simp [podEnsure, h4, hu]
  | false => simp [podEnsure, h4]

/-- When the status patch succeeds, the status block succeeds and its
trace is exactly the expected status writes. -/
theorem statusPhase_ok (env : KubeEnv) (h : isOk env.patchStatus = true) :
    statusPhase env =
      ((expectedStatusWrites (podObservation env.getPod)).map Call.patchStatus,
       .ok ()) := by
  obtain ⟨u, hu⟩ := isOk_true h
  cases hobs : podObservation env.getPod with
  | none => simp [statusPhase, hobs, update_status, hu, expectedStatusWrites]
  | some css =>
    cases hall : css.all containerStarted with
    | true => simp [statusPhase, hobs, hall, update_status, hu, expectedStatusWrites]
    | false => simp [statusPhase, hobs, hall, expectedStatusWrites]

/-- The status block's writes are always the expected status writes,
whatever the patch outcome. -/
theorem statusPhase_writes (env : KubeEnv) :
    statusWrites (statusPhase env).1 =
      expectedStatusWrites (podObservation env.getPod) := by
  cases hobs : podObservation env.getPod with
  | none =>
    cases hu : env.patchStatus <;>
      simp [statusPhase, hobs, update_status, hu, expectedStatusWrites, statusWrites]
  | some css =>
    cases hall : css.all containerStarted with
    | true =>
      cases hu : env.patchStatus <;>
        simp [statusPhase, hobs, hall, update_status, hu, expectedStatusWrites,
              statusWrites]
    | false => simp [statusPhase, hobs, hall, expectedStatusWrites, statusWrites]

/-- The service ensure block never issues a status patch. -/
theorem serviceEnsure_no_patch (env : KubeEnv) (vm : VirtualMachine) :
    (serviceEnsure env vm).1.all (fun c => !isPatchCall c) = true := by
  cases h4 : is404 env.getService with
  | true =>
    cases hc : env.createService <;> simp [serviceEnsure, h4, hc, isPatchCall]
  | false => simp [serviceEnsure, h4, isPatchCall]

/-- The pod ensure block never issues a status patch. -/
theorem podEnsure_no_patch (env : KubeEnv) (vm : VirtualMachine) :
    (podEnsure env vm).1.all (fun c => !isPatchCall c) = true := by
  cases h4 : is404 env.getPod with
  | true =>
    cases hc : env.createPod <;> simp [podEnsure, h4, hc, isPatchCall]
  | false => simp [podEnsure, h4, isPatchCall]

/-- A patch-free trace has no status writes. -/
theorem statusWrites_nil_of_no_patch {l : List Call}
    (h : l.all (fun c => !isPatchCall c) = true) : statusWrites l = [] := by
  induction l with
  | nil => rfl
  | cons c t ih =>
    rw [List.all_cons, Bool.and_eq_true] at h
    have ih2 := ih h.2
    cases c with
    | patchStatus st => simp [isPatchCall] at h
    | getService => simpa [statusWrites, List.filterMap_cons] using ih2
    | createService s => simpa [statusWrites, List.filterMap_cons] using ih2
    | getPod => simpa [statusWrites, List.filterMap_cons] using ih2
    | createPod p => simpa [statusWrites, List.filterMap_cons] using ih2
    | deletePod => simpa [statusWrites, List.filterMap_cons] using ih2
    | deleteService => simpa [statusWrites, List.filterMap_cons] using ih2

/-- Status writes distribute over trace concatenation. -/
theorem statusWrites_append (a b : List Call) :
    statusWrites (a ++ b) = statusWrites a ++ statusWrites b := by
  simp [statusWrites, List.filterMap_append]

/-- A trace of status patches never contains a Service create. -/
theorem any_createService_map_patch (xs : List VirtualMachineCurrentState) :
    ((xs.map Call.patchStatus).any isCreateServiceCall) = false := by
  induction xs <;> simp_all [isCreateServiceCall]

/-- A trace of status patches never contains a Pod create. -/
theorem any_createPod_map_patch (xs : List VirtualMachineCurrentState) :
    ((xs.map Call.patchStatus).any isCreatePodCall) = false := by
  induction xs <;> simp_all [isCreatePodCall]

/-- A status-write scan skips a getService call. -/
theorem statusWrites_cons_getService (l : List Call) :
    statusWrites (Call.getService :: l) = statusWrites l := rfl

/-- A status-write scan skips a createService call. -/
theorem statusWrites_cons_createService (s : Service) (l : List Call) :
    statusWrites (Call.createService s :: l) = statusWrites l := rfl

/-- A status-write scan skips a getPod call. -/
theorem statusWrites_cons_getPod (l : List Call) :
    statusWrites (Call.getPod :: l) = statusWrites l := rfl

/-- A status-write scan skips a createPod call. -/
theorem statusWrites_cons_createPod (p : Pod) (l : List Call) :
    statusWrites (Call.createPod p :: l) = statusWrites l := rfl

/-- A patch-free trace trivially satisfies the allowed-write check. -/
theorem all_allowed_of_no_patch {l : List Call}
    (h : l.all (fun c => !isPatchCall c) = true) :
    l.all statusWriteAllowed = true := by
  induction l with
  | nil => rfl
  | cons c t ih =>
    rw [List.all_cons, Bool.and_eq_true] at h ⊢
    refine ⟨?_, ih h.2⟩
    have hc := h.1
    cases c <;> simp [isPatchCall] at hc ⊢ <;> simp [statusWriteAllowed]

/-- Every status patch the status block can issue is STARTING or
STARTED. -/
theorem statusPhase_allowed (env : KubeEnv) :
    (statusPhase env).1.all statusWriteAllowed = true := by
  cases hobs : podObservation env.getPod with
  | none =>
    cases hu : env.patchStatus <;>
      simp [statusPhase, hobs, update_status, hu, statusWriteAllowed]
  | some css =>
    cases hall : css.all containerStarted with
    | true =>
      cases hu : env.patchStatus <;>
        simp [statusPhase, hobs, hall, update_status, hu, statusWriteAllowed]
    | false => simp [statusPhase, hobs, hall]

/-- Applying one call to the cluster preserves the VM object's
metadata and spec (only its status can change, via a status patch). -/
theorem applyCall_vm_fields (c : Cluster) (call : Call) :
    (applyCall c call).vm.metadata = c.vm.metadata ∧
    (applyCall c call).vm.spec = c.vm.spec := by
  cases call <;> simp [applyCall]

/-- Applying a trace to the cluster preserves the VM object's metadata
and spec. -/
theorem applyTrace_vm_fields (calls : List Call) : ∀ c : Cluster,
    (applyTrace c calls).vm.metadata = c.vm.metadata ∧
    (applyTrace c calls).vm.spec = c.vm.spec := by
  induction calls with
  | nil => intro c; exact ⟨rfl, rfl⟩
  | cons call t ih =>
    intro c
    have h1 := applyCall_vm_fields c call
    have h2 := ih (applyCall c call)
    exact ⟨h2.1.trans h1.1, h2.2.trans h1.2⟩

/-- Adding the finalizer does not change the deletion timestamp. -/
theorem addFinalizer_deletionTimestamp (vm : VirtualMachine) :
    (addFinalizer vm).metadata.deletionTimestamp =
      vm.metadata.deletionTimestamp := by
  by_cases h : VIRTUAL_MACHINE_FINALIZER ∈ vm.metadata.finalizers.getD [] <;>
    simp [addFinalizer, h]

/-- After the finalizer-add patch the finalizer marker is present. -/
theorem mem_addFinalizer (vm : VirtualMachine) :
    VIRTUAL_MACHINE_FINALIZER ∈ (addFinalizer vm).metadata.finalizers.getD [] := by
  by_cases h : VIRTUAL_MACHINE_FINALIZER ∈ vm.metadata.finalizers.getD [] <;>
    simp [addFinalizer, h]

/-- The finalizer-add patch is a no-op when the marker is already
present: no duplicate finalizer entries. -/
theorem addFinalizer_eq_of_mem (vm : VirtualMachine)
    (h : VIRTUAL_MACHINE_FINALIZER ∈ vm.metadata.finalizers.getD []) :
    addFinalizer vm = vm := by
  simp [addFinalizer, h]

/-- Removing the finalizer does not change the deletion timestamp. -/
theorem removeFinalizer_deletionTimestamp (vm : VirtualMachine) :
    (removeFinalizer vm).metadata.deletionTimestamp =
      vm.metadata.deletionTimestamp := rfl

/-- The finalizer-remove patch is idempotent. -/
theorem removeFinalizer_idem (vm : VirtualMachine) :
    removeFinalizer (removeFinalizer vm) = removeFinalizer vm := by
  simp [removeFinalizer, List.filter_filter]

/-- One fault-free reconcile pass against the cluster is idempotent on
the cluster state: the second pass recreates nothing, deletes nothing,
and rewrites at most the same status value. -/
theorem normalStep_idem (c : Cluster) : normalStep (normalStep c) = normalStep c := by
  obtain ⟨⟨vmeta, ⟨im, ds⟩, vst⟩, pod, service⟩ := c
  cases ds with
  | STOPPED =>
    cases pod <;> cases service <;>
      simp [normalStep, reconcile, stop, envOf, applyTrace, applyCall]
  | HIBERNATED =>
    cases pod <;> cases service <;>
      simp [normalStep, reconcile, hibernate, envOf, applyTrace]
  | STARTED =>
    cases pod with
    | none =>
      cases service <;>
        simp [normalStep, reconcile, start, serviceEnsure, podEnsure, statusPhase,
              envOf, applyTrace, applyCall, is404, notFound, podObservation,
              update_status, desiredPod]
    | some p =>
      obtain ⟨pm, psp, pst⟩ := p
      cases pst with
      | none =>
        cases service <;>
          simp [normalStep, reconcile, start, serviceEnsure, podEnsure, statusPhase,
                envOf, applyTrace, applyCall, is404, notFound, podObservation,
                update_status]
      | some ps =>
        obtain ⟨pcss⟩ := ps
        cases pcss with
        | none =>
          cases service <;>
            simp [normalStep, reconcile, start, serviceEnsure, podEnsure, statusPhase,
                  envOf, applyTrace, applyCall, is404, notFound, podObservation,
                  update_status]
        | some css =>
          cases hall : css.all containerStarted <;> cases service <;>
            simp [normalStep, reconcile, start, serviceEnsure, podEnsure, statusPhase,
                  envOf, applyTrace, applyCall, is404, notFound, podObservation,
                  update_status, hall]

/-! ## Claims -/

/-- C1, counterexample: with both child lookups failing with a non-404
(500) Api error and every write succeeding, start issues no create and
returns Ok: the non-404 lookup errors are swallowed, not surfaced as a
reconcile failure. -/
theorem start_swallows_non404_lookup_errors :
    start envLookup500 vm0 =
      ([Call.getService, Call.getPod,
        Call.patchStatus VirtualMachineCurrentState.STARTING], Except.ok ()) := rfl

/-- C1 (amended): in the STARTED path with start's own writes
succeeding, a create of the Service (resp. the Pod) is issued iff the
preceding get lookup of that child returned a 404 Api error, and every
other lookup error (non-404 Api error, transport error) is silently
swallowed: start returns Ok rather than surfacing the lookup error. -/
theorem start_create_iff_404 (env : KubeEnv) (vm : VirtualMachine)
    (hcs : isOk env.createService = true) (hcp : isOk env.createPod = true)
    (hps : isOk env.patchStatus = true) :
    ((start env vm).1.any isCreateServiceCall = is404 env.getService) ∧
    ((start env vm).1.any isCreatePodCall = is404 env.getPod) ∧
    (start env vm).2 = Except.ok () := by
  have hs := serviceEnsure_ok env vm hcs
  have hp := podEnsure_ok env vm hcp
  have hst := statusPhase_ok env hps
  cases h4s : is404 env.getService <;> cases h4p : is404 env.getPod <;>
    simp [start, hs, hp, hst, h4s, h4p, isCreateServiceCall, isCreatePodCall,
          any_createService_map_patch, any_createPod_map_patch]

/-- C1, witness: the amended theorem at the both-children-absent
environment, where both creates are issued and start succeeds. -/
theorem start_create_iff_404_witness :
    ((start env404 vm0).1.any isCreateServiceCall = is404 env404.getService) ∧
    ((start env404 vm0).1.any isCreatePodCall = is404 env404.getPod) ∧
    (start env404 vm0).2 = Except.ok () :=
  start_create_iff_404 env404 vm0 rfl rfl rfl

/-- C2, counterexample: with the Pod present and its container
statuses present but not all started, start issues no status patch at
all, refuting that Current is set to STARTING in every case other than
all-containers-started. -/
theorem start_no_patch_when_not_all_started :
    start envPodNotStarted vm0 = ([Call.getService, Call.getPod], Except.ok ()) := rfl

/-- C2 (amended): after the ensure-exists operations (their creates
succeeding), the status writes of start are exactly: STARTED when the
Pod lookup returned a Pod with container statuses all started, no
write when container statuses are present but not all started, and
STARTING when the Pod lookup failed or the Pod carries no container
statuses. -/
theorem start_status_writes (env : KubeEnv) (vm : VirtualMachine)
    (hcs : isOk env.createService = true) (hcp : isOk env.createPod = true) :
    statusWrites (start env vm).1 =
      expectedStatusWrites (podObservation env.getPod) := by
  have hs := serviceEnsure_ok env vm hcs
  have hp := podEnsure_ok env vm hcp
  cases h4s : is404 env.getService <;> cases h4p : is404 env.getPod <;>
    simp [start, hs, hp, h4s, h4p, statusWrites_append, statusPhase_writes,
          statusWrites_cons_getService, statusWrites_cons_createService,
          statusWrites_cons_getPod, statusWrites_cons_createPod]

/-- C2, witness: the amended theorem at the running-pod environment,
where the single status write is STARTED. -/
theorem start_status_writes_witness :
    statusWrites (start envBothOk vm0).1 =
      expectedStatusWrites (podObservation envBothOk.getPod) :=
  start_status_writes envBothOk vm0 rfl rfl

/-- C3, counterexample: a VirtualMachine with desired state HIBERNATED
reconciles to a success outcome (the normal 300-second requeue) with
an empty call trace: no child-resource operation and no status
operation, a no-op success. -/
theorem hibernated_reconcile_is_noop_success :
    reconcile env404 vmHib = ([], Except.ok (Action.requeue 300)) := rfl

/-- C3 (amended): for desired state HIBERNATED, reconcile is a
log-only no-op that performs no child-resource or status operation and
returns the normal success outcome, the 300-second requeue. -/
theorem hibernated_noop_success (env : KubeEnv) (vm : VirtualMachine)
    (h : vm.spec.state = VirtualMachineDesiredState.HIBERNATED) :
    reconcile env vm = ([], Except.ok (Action.requeue 300)) := by
  simp [reconcile, h, hibernate]

/-- C3, witness: the amended theorem at a concrete HIBERNATED
VirtualMachine. -/
theorem hibernated_noop_success_witness :
    reconcile env404 vmHib = ([], Except.ok (Action.requeue 300)) :=
  hibernated_noop_success env404 vmHib rfl

/-- C4, counterexample: the VirtualMachine controller's status patch
is not a force-applied server-side apply with a field manager: it is a
merge patch with the default parameters (no field manager, not
forced). -/
theorem vm_status_patch_not_force_apply :
    ¬ IsForceApply vmStatusPatchKind vmStatusPatchParams ∧
    vmStatusPatchKind = PatchKind.Merge ∧
    vmStatusPatchParams.fieldManager = none ∧
    vmStatusPatchParams.force = false := by
  refine ⟨fun h => absurd h.1 (by decide), rfl, rfl, rfl⟩

/-- C4 (amended): the Pokemon controller's status patch is a
force-applied server-side apply carrying the field manager cntrlr,
while the VirtualMachine controller's status patch is a merge patch
with default parameters; both target only the status subresource. -/
theorem status_patch_mechanics :
    IsForceApply pokemonStatusPatchKind pokemonStatusPatchParams ∧
    vmStatusPatchKind = PatchKind.Merge ∧
    vmStatusPatchParams = PatchParams.default := by
  refine ⟨⟨rfl, rfl, ?_⟩, rfl, rfl⟩
  simp [pokemonStatusPatchParams, PatchParams.applyManager, PatchParams.forced]

/-- C5, counterexample: a 409 optimistic-concurrency conflict error
receives the same fixed 300-second requeue as every other error; the
error policy does not schedule an immediate re-reconcile. -/
theorem conflict_gets_fixed_backoff :
    error_policy vmStop (Error.KubeError (KubeError.Api conflictResponse)) =
      Action.requeue 300 ∧
    Action.requeue 300 ≠ Action.requeue 0 :=
  ⟨rfl, by decide⟩

/-- C5 (amended): conflict errors are not special-cased: every
reconcile error, conflicts included, is retried via the uniform fixed
300-second requeue of the error policy. -/
theorem error_policy_no_conflict_special_case :
    ∀ (vm : VirtualMachine) (e : Error), error_policy vm e = Action.requeue 300 :=
  fun _ _ => rfl

/-- C6: for desired state STOPPED with the deletes succeeding,
reconcile issues a delete of the Pod (resp. the Service) iff the
preceding get lookup of that child succeeded, and when both lookups
fail it makes zero delete calls and succeeds with the normal
requeue. -/
theorem stop_deletes_iff_lookup_ok (env : KubeEnv) (vm : VirtualMachine)
    (hstate : vm.spec.state = VirtualMachineDesiredState.STOPPED)
    (hdp : isOk env.deletePod = true) (hds : isOk env.deleteService = true) :
    (Call.deletePod ∈ (reconcile env vm).1 ↔ isOk env.getPod = true) ∧
    (Call.deleteService ∈ (reconcile env vm).1 ↔ isOk env.getService = true) ∧
    (isOk env.getPod = false → isOk env.getService = false →
      (reconcile env vm).1.countP isDeleteCall = 0 ∧
      (reconcile env vm).2 = Except.ok (Action.requeue 300)) := by
  obtain ⟨u1, hu1⟩ := isOk_true hdp
  obtain ⟨u2, hu2⟩ := isOk_true hds
  cases hgp : env.getPod <;> cases hgs : env.getService <;>
    simp [reconcile, hstate, stop, hgp, hgs, hu1, hu2, isOk, isDeleteCall]

/-- C6, witness: the theorem at the both-children-present environment,
where both deletes are issued. -/
theorem stop_deletes_iff_lookup_ok_witness :
    (Call.deletePod ∈ (reconcile envBothOk vmStop).1 ↔
      isOk envBothOk.getPod = true) ∧
    (Call.deleteService ∈ (reconcile envBothOk vmStop).1 ↔
      isOk envBothOk.getService = true) ∧
    (isOk envBothOk.getPod = false → isOk envBothOk.getService = false →
      (reconcile envBothOk vmStop).1.countP isDeleteCall = 0 ∧
      (reconcile envBothOk vmStop).2 = Except.ok (Action.requeue 300)) :=
  stop_deletes_iff_lookup_ok envBothOk vmStop rfl rfl rfl

/-- C7: reconcile is idempotent: running the finalizer-gated reconcile
twice against the cluster with no intervening external change yields
the same child-resource state, status and finalizer entries as running
it once. -/
theorem reconcile_idempotent (c : Cluster) : gateStep (gateStep c) = gateStep c := by
  cases hdel : c.vm.metadata.deletionTimestamp.isSome with
  | true =>
    have h1 : gateStep c = { c with vm := removeFinalizer c.vm } := by
      simp [gateStep, hdel]
    rw [h1]
    simp [gateStep, removeFinalizer_deletionTimestamp, hdel, removeFinalizer_idem]
  | false =>
    have h1 : gateStep c = normalStep { c with vm := addFinalizer c.vm } := by
      simp [gateStep, hdel]
    set c1 : Cluster := { c with vm := addFinalizer c.vm } with hc1
    have hmeta : (normalStep c1).vm.metadata = c1.vm.metadata :=
      (applyTrace_vm_fields (reconcile (envOf c1) c1.vm).1 c1).1
    have hdel2 : (normalStep c1).vm.metadata.deletionTimestamp.isSome = false := by
      rw [hmeta, hc1]
      simpa [addFinalizer_deletionTimestamp] using hdel
    have hmem : VIRTUAL_MACHINE_FINALIZER ∈
        (normalStep c1).vm.metadata.finalizers.getD [] := by
      rw [hmeta, hc1]
      exact mem_addFinalizer c.vm
    have hfin : addFinalizer (normalStep c1).vm = (normalStep c1).vm :=
      addFinalizer_eq_of_mem _ hmem
    have h3 : gateStep (normalStep c1) =
        normalStep { normalStep c1 with vm := addFinalizer (normalStep c1).vm } := by
      simp [gateStep, hdel2]
    rw [h1, h3, hfin]
    exact normalStep_idem c1

/-- C8: the error policy returns the fixed 300-second requeue for
every object and every error, with no differentiation; and a
successful reconcile returns the 300-second requeue. -/
theorem error_policy_fixed_requeue :
    (∀ (vm : VirtualMachine) (e : Error), error_policy vm e = Action.requeue 300) ∧
    (∀ (env : KubeEnv) (vm : VirtualMachine) (a : Action),
      (reconcile env vm).2 = Except.ok a → a = Action.requeue 300) := by
  refine ⟨fun _ _ => rfl, fun env vm a h => ?_⟩
  cases hstate : vm.spec.state with
  | STOPPED =>
    simp only [reconcile, hstate] at h
    cases h2 : (stop env vm).2 <;> rw [h2] at h <;> simp at h
    exact h.symm
  | STARTED =>
    simp only [reconcile, hstate] at h
    cases h2 : (start env vm).2 <;> rw [h2] at h <;> simp at h
    exact h.symm
  | HIBERNATED =>
    simp only [reconcile, hstate] at h
    cases h2 : (hibernate env vm).2 <;> rw [h2] at h <;> simp at h
    exact h.symm

/-- C8, witness: the theorem applied to a concrete error and to a
concrete successful reconcile. -/
theorem error_policy_fixed_requeue_witness :
    error_policy vmStop Error.FinalizerError = Action.requeue 300 ∧
    Action.requeue 300 = Action.requeue 300 :=
  ⟨error_policy_fixed_requeue.1 vmStop Error.FinalizerError,
   error_policy_fixed_requeue.2 env404 vm0 (Action.requeue 300) rfl⟩

/-- C9: every status write of a VirtualMachine reconcile pass is
STARTING or STARTED, and the STOPPED and HIBERNATED paths issue no
status patch at all. -/
theorem status_writes_only_starting_started (env : KubeEnv) (vm : VirtualMachine) :
    ((reconcile env vm).1.all statusWriteAllowed = true) ∧
    ((vm.spec.state = VirtualMachineDesiredState.STOPPED ∨
      vm.spec.state = VirtualMachineDesiredState.HIBERNATED) →
      (reconcile env vm).1.all (fun c => !isPatchCall c) = true) := by
  cases hstate : vm.spec.state with
  | STOPPED =>
    constructor
    · cases hgp : env.getPod <;> cases hdp : env.deletePod <;>
        cases hgs : env.getService <;> cases hds : env.deleteService <;>
        simp [reconcile, hstate, stop, hgp, hdp, hgs, hds, statusWriteAllowed]
    · intro _
      cases hgp : env.getPod <;> cases hdp : env.deletePod <;>
        cases hgs : env.getService <;> cases hds : env.deleteService <;>
        simp [reconcile, hstate, stop, hgp, hdp, hgs, hds, isPatchCall]
  | HIBERNATED =>
    constructor
    · simp [reconcile, hstate, hibernate]
    · intro _; simp [reconcile, hstate, hibernate]
  | STARTED =>
    have hsnp := serviceEnsure_no_patch env vm
    have hpnp := podEnsure_no_patch env vm
    constructor
    · rcases hs : serviceEnsure env vm with ⟨scalls, sres⟩
      rw [hs] at hsnp
      cases sres with
      | error e =>
        simpa [reconcile, hstate, start, hs] using all_allowed_of_no_patch hsnp
      | ok u =>
        rcases hp : podEnsure env vm with ⟨pcalls, pres⟩
        rw [hp] at hpnp
        have h1 := all_allowed_of_no_patch hsnp
        have h2 := all_allowed_of_no_patch hpnp
        cases pres with
        | error e =>
          simp only [reconcile, hstate, start, hs, hp]
          simp only [List.all_append, Bool.and_eq_true]
          exact ⟨h1, h2⟩
        | ok u2 =>
          have h3 := statusPhase_allowed env
          simp only [reconcile, hstate, start, hs, hp]
          simp only [List.all_append, Bool.and_eq_true]
          exact ⟨⟨h1, h2⟩, h3⟩
    · intro hor
      rcases hor with hor | hor <;> exact absurd hor (by simp)

/-- C9, witness: the theorem at concrete STARTED and STOPPED
VirtualMachines. -/
theorem status_writes_only_starting_started_witness :
    ((reconcile env404 vm0).1.all statusWriteAllowed = true) ∧
    ((reconcile env404 vmStop).1.all (fun c => !isPatchCall c) = true) :=
  ⟨(status_writes_only_starting_started env404 vm0).1,
   (status_writes_only_starting_started env404 vmStop).2 (Or.inl rfl)⟩

/-- C10: cleanup is total and unconditionally successful — no API
calls, always Ok with the terminal await-change action — and the
finalizer gate therefore always removes the finalizer from a deleting
object: finalizer removal is never blocked by cleanup. -/
theorem cleanup_total_and_nonblocking :
    (∀ vm : VirtualMachine, cleanup vm = ([], Except.ok Action.await_change)) ∧
    (∀ c : Cluster, c.vm.metadata.deletionTimestamp.isSome = true →
      VIRTUAL_MACHINE_FINALIZER ∉ (gateStep c).vm.metadata.finalizers.getD []) := by
  refine ⟨fun _ => rfl, fun c h => ?_⟩
  simp [gateStep, h, removeFinalizer, List.mem_filter]

/-- C10, witness: the theorem at a concrete VirtualMachine and a
concrete deleting cluster. -/
theorem cleanup_total_and_nonblocking_witness :
    cleanup vm0 = ([], Except.ok Action.await_change) ∧
    VIRTUAL_MACHINE_FINALIZER ∉
      (gateStep clusterDeleting).vm.metadata.finalizers.getD [] :=
  ⟨cleanup_total_and_nonblocking.1 vm0,
   cleanup_total_and_nonblocking.2 clusterDeleting rfl⟩

end Fink
